import Mathlib

/-!
# Verification of the multi-connection database service

A shallow embedding, in Lean 4, of the core of the
`database-multi-connection` repository:

* `app/utils/hash_verifier.py` — the credential codec
  (`simple_encrypt` / `simple_decrypt`), built on base64 and SHA-256;
* `app/cache/redis_cache.py` — the `redis_cache` memoization wrapper;
* `app/services/db_service.py` — `execute_query_with_cache` and
  `get_ddl_with_cache`;
* `app/db/odbc_connector.py` and `app/db/postgres_connector.py` — the
  two connector variants (`connect`, `execute_query`, `get_ddl`).

Bytes are modelled as `Nat` values below 256; Python byte strings as
`List Nat`.  Library functions from outside the repository (Python's
`hashlib.sha256`, the redis client, the database drivers) are modelled
either concretely (base64, whose algorithm is fixed by RFC 4648) or as
parameters constrained by their documented contracts (SHA-256 is an
arbitrary function producing 32 bytes).  Python exceptions are modelled
with `Except` / explicit failure flags; every `try/except` of the source
becomes a total Lean function, which is faithful exactly because the
source catches all exceptions on the paths we model.
-/

namespace DbMulti

/-! ## Base64 (Python `base64.b64encode` / `b64decode`, RFC 4648)

The codec in `hash_verifier.py` calls Python's standard base64 on byte
strings.  We model it concretely on `List Nat` (bytes).  `61` is the
ASCII code of the padding character `=`. -/

/-- The base64 alphabet: sextet value (0..63) to ASCII code. -/
def b64chr (n : Nat) : Nat :=
  if n < 26 then 65 + n
  else if n < 52 then 97 + (n - 26)
  else if n < 62 then 48 + (n - 52)
  else if n = 62 then 43 else 47

/-- Inverse of the base64 alphabet: ASCII code to sextet value. -/
def b64idx (c : Nat) : Nat :=
  if 65 ≤ c ∧ c ≤ 90 then c - 65
  else if 97 ≤ c ∧ c ≤ 122 then 26 + (c - 97)
  else if 48 ≤ c ∧ c ≤ 57 then 52 + (c - 48)
  else if c = 43 then 62 else 63

theorem b64idx_b64chr {n : Nat} (h : n < 64) : b64idx (b64chr n) = n := by
  revert h; revert n; decide

theorem b64chr_ne_pad {n : Nat} (h : n < 64) : b64chr n ≠ 61 := by
  revert h; revert n; decide

theorem b64chr_lt (n : Nat) : b64chr n < 256 := by
  unfold b64chr; split_ifs <;> omega

/-- Base64 encoding of a byte string, three bytes to four characters,
with `=` padding on a final group of one or two bytes. -/
def b64encode : List Nat → List Nat
  | [] => []
  | [a] => [b64chr (a / 4), b64chr (a % 4 * 16), 61, 61]
  | [a, b] => [b64chr (a / 4), b64chr (a % 4 * 16 + b / 16), b64chr (b % 16 * 4), 61]
  | a :: b :: c :: rest =>
      b64chr (a / 4) :: b64chr (a % 4 * 16 + b / 16) ::
      b64chr (b % 16 * 4 + c / 64) :: b64chr (c % 64) :: b64encode rest

/-- Base64 decoding, four characters to three bytes, padding-aware.
On well-formed input (any `b64encode` output) this is exact; malformed
tails are dropped, matching the fact that the callers in
`hash_verifier.py` wrap decoding in a catch-all `try`. -/
def b64decode : List Nat → List Nat
  | w :: x :: y :: z :: rest =>
      if y = 61 then [b64idx w * 4 + b64idx x / 16]
      else if z = 61 then
        [b64idx w * 4 + b64idx x / 16, (b64idx x % 16 * 16 + b64idx y / 4)]
      else
        (b64idx w * 4 + b64idx x / 16) ::
        (b64idx x % 16 * 16 + b64idx y / 4) ::
        (b64idx y % 4 * 64 + b64idx z) :: b64decode rest
  | _ => []

theorem div_combine {k : Nat} (x y : Nat) (hk : 0 < k) (hy : y < k) :
    (x * k + y) / k = x := by
  rw [Nat.add_comm, Nat.add_mul_div_right y x hk, Nat.div_eq_of_lt hy, Nat.zero_add]

theorem mod_combine {k : Nat} (x y : Nat) (hy : y < k) :
    (x * k + y) % k = y := by
  rw [Nat.add_comm, Nat.add_mul_mod_self_right, Nat.mod_eq_of_lt hy]

theorem b64encode_mem_lt : ∀ (bs : List Nat), ∀ x ∈ b64encode bs, x < 256
  | [], x, hx => by simp [b64encode] at hx
  | [a], x, hx => by
      simp only [b64encode, List.mem_cons, List.not_mem_nil, or_false] at hx
      rcases hx with h | h | h | h <;> subst h
      · exact b64chr_lt _
      · exact b64chr_lt _
      · omega
      · omega
  | [a, b], x, hx => by
      simp only [b64encode, List.mem_cons, List.not_mem_nil, or_false] at hx
      rcases hx with h | h | h | h <;> subst h
      · exact b64chr_lt _
      · exact b64chr_lt _
      · exact b64chr_lt _
      · omega
  | a :: b :: c :: rest, x, hx => by
      simp only [b64encode, List.mem_cons] at hx
      rcases hx with h | h | h | h | h
      · exact h ▸ b64chr_lt _
      · exact h ▸ b64chr_lt _
      · exact h ▸ b64chr_lt _
      · exact h ▸ b64chr_lt _
      · exact b64encode_mem_lt rest x h

/-- Base64 round-trip on byte strings. -/
theorem b64decode_b64encode :
    ∀ (bs : List Nat), (∀ b ∈ bs, b < 256) → b64decode (b64encode bs) = bs
  | [], _ => rfl
  | [a], h => by
      have ha : a < 256 := h a (by simp)
      have h1 : a / 4 < 64 := by omega
      have h2 : a % 4 * 16 < 64 := by omega
      have e1 : a % 4 * 16 / 16 = a % 4 := by simp
      simp only [b64encode, b64decode, if_pos rfl,
        b64idx_b64chr h1, b64idx_b64chr h2, e1, if_true]
      have : a / 4 * 4 + a % 4 = a := by omega
      rw [this]
  | [a, b], h => by
      have ha : a < 256 := h a (by simp)
      have hb : b < 256 := h b (by simp)
      have h1 : a / 4 < 64 := by omega
      have h2 : a % 4 * 16 + b / 16 < 64 := by omega
      have h3 : b % 16 * 4 < 64 := by omega
      have e1 : (a % 4 * 16 + b / 16) / 16 = a % 4 :=
        div_combine (a % 4) (b / 16) (by norm_num) (by omega)
      have e2 : (a % 4 * 16 + b / 16) % 16 = b / 16 :=
        mod_combine (a % 4) (b / 16) (by omega)
      have e3 : b % 16 * 4 / 4 = b % 16 := by simp
      simp only [b64encode, b64decode, if_neg (b64chr_ne_pad h3), if_pos rfl,
        b64idx_b64chr h1, b64idx_b64chr h2, b64idx_b64chr h3, e1, e2, e3, if_true]
      have g1 : a / 4 * 4 + a % 4 = a := by omega
      have g2 : b / 16 * 16 + b % 16 = b := by omega
      rw [g1, g2]
  | a :: b :: c :: rest, h => by
      have ha : a < 256 := h a (by simp)
      have hb : b < 256 := h b (by simp)
      have hc : c < 256 := h c (by simp)
      have h1 : a / 4 < 64 := by omega
      have h2 : a % 4 * 16 + b / 16 < 64 := by omega
      have h3 : b % 16 * 4 + c / 64 < 64 := by omega
      have h4 : c % 64 < 64 := by omega
      have e1 : (a % 4 * 16 + b / 16) / 16 = a % 4 :=
        div_combine (a % 4) (b / 16) (by norm_num) (by omega)
      have e2 : (a % 4 * 16 + b / 16) % 16 = b / 16 :=
        mod_combine (a % 4) (b / 16) (by omega)
      have e3 : (b % 16 * 4 + c / 64) / 4 = b % 16 :=
        div_combine (b % 16) (c / 64) (by norm_num) (by omega)
      have e4 : (b % 16 * 4 + c / 64) % 4 = c / 64 :=
        mod_combine (b % 16) (c / 64) (by omega)
      have ih := b64decode_b64encode rest (fun x hx => h x (by simp [hx]))
      simp only [b64encode]
      simp only [b64decode, if_neg (b64chr_ne_pad h3), if_neg (b64chr_ne_pad h4),
        b64idx_b64chr h1, b64idx_b64chr h2, b64idx_b64chr h3, b64idx_b64chr h4,
        e1, e2, e3, e4]
      have g1 : a / 4 * 4 + a % 4 = a := by omega
      have g2 : b / 16 * 16 + b % 16 = b := by omega
      have g3 : c / 64 * 64 + c % 64 = c := by omega
      rw [g1, g2, g3, ih]

/-! ## The credential codec (`app/utils/hash_verifier.py`)

`simple_encrypt` signs `connection_string + HASH_SECRET` with SHA-256
(32 bytes), base64-encodes the connection string, and base64-encodes the
concatenation `signature ++ encoded`.  `simple_decrypt` inverts this and
checks the signature, returning `None` (here `none`) on mismatch.
SHA-256 itself is library code outside the repository; it enters as a
parameter `sha` together with its contract: a function of the input
producing exactly 32 bytes. -/

/-- `simple_encrypt` of `hash_verifier.py`, on the bytes of the
connection string.  `sha` models `hashlib.sha256(·).digest()`,
`secret` the bytes of `HASH_SECRET`. -/
def simple_encrypt (sha : List Nat → List Nat) (secret conn : List Nat) : List Nat :=
  b64encode (sha (conn ++ secret) ++ b64encode conn)

/-- `simple_decrypt` of `hash_verifier.py`: outer base64 decode, split
off the 32-byte signature, inner base64 decode, recompute and compare
the signature; `none` models Python's `return None`. -/
def simple_decrypt (sha : List Nat → List Nat) (secret hv : List Nat) : Option (List Nat) :=
  let decoded := b64decode hv
  let signature := decoded.take 32
  let encoded_conn := decoded.drop 32
  let conn := b64decode encoded_conn
  if signature = sha (conn ++ secret) then some conn else none

/-- C1: For every descriptor byte string `conn` and every hash function
producing 32 bytes (as SHA-256 does), decoding the token produced by
encoding `conn` recovers `conn` exactly — the token having the form
`base64 (signature ++ base64 conn)`:
`simple_decrypt (simple_encrypt conn) = some conn`. -/
theorem simple_decrypt_simple_encrypt
    (sha : List Nat → List Nat)
    (hlen : ∀ s, (sha s).length = 32)
    (hsha : ∀ s, ∀ b ∈ sha s, b < 256)
    (secret conn : List Nat) (hconn : ∀ b ∈ conn, b < 256) :
    simple_decrypt sha secret (simple_encrypt sha secret conn) = some conn := by
  unfold simple_encrypt simple_decrypt
  have hall : ∀ b ∈ sha (conn ++ secret) ++ b64encode conn, b < 256 := by
    intro b hb
    rcases List.mem_append.1 hb with h | h
    · exact hsha _ b h
    · exact b64encode_mem_lt _ b h
  rw [b64decode_b64encode _ hall]
  have hsig : (sha (conn ++ secret) ++ b64encode conn).take 32 = sha (conn ++ secret) := by
    rw [← hlen (conn ++ secret)]
    exact List.take_left _ _
  have henc : (sha (conn ++ secret) ++ b64encode conn).drop 32 = b64encode conn := by
    rw [← hlen (conn ++ secret)]
    exact List.drop_left _ _
  simp only [hsig, henc, b64decode_b64encode conn hconn, if_pos rfl, if_true]

/-- C1 witness: a concrete round trip with a concrete 32-byte hash
function and the descriptor bytes of `"hi"`. -/
theorem simple_decrypt_simple_encrypt_witness :
    simple_decrypt (fun _ => List.replicate 32 7) [9, 9]
      (simple_encrypt (fun _ => List.replicate 32 7) [9, 9] [104, 105])
      = some [104, 105] :=
  simple_decrypt_simple_encrypt (fun _ => List.replicate 32 7)
    (fun _ => by simp)
    (fun _ b hb => by
      have := List.eq_of_mem_replicate hb
      omega)
    [9, 9] [104, 105]
    (fun b hb => by
      simp only [List.mem_cons, List.not_mem_nil, or_false] at hb
      omega)

/-! ## Query results (`execute_query` of both connectors)

A driver cursor after `cursor.execute(query)`: `description` is `none`
for statements without a result set (DML), `some cols` otherwise;
`rows` is what `fetchall()` would yield; `rowcount` the driver's
mutation count (an `Int`, since pyodbc/psycopg2 report `-1` for
non-DML).  The row type is abstract. -/

structure Cursor (Row : Type) where
  description : Option (List String)
  rows : List Row
  rowcount : Int
deriving Repr

/-- The result dictionary built by the connectors' `execute_query`. -/
structure QueryResult (Row : Type) where
  columns : List String
  data : List Row
  row_count : Int
  affected_rows : Int
deriving Repr

/-- `ODBCConnector.execute_query` (odbc_connector.py): columns and rows
are read only when `cursor.description` is set; `row_count` is
`len(results) if cursor.description else cursor.rowcount` and
`affected_rows` is `cursor.rowcount if not cursor.description else 0`. -/
def odbc_query_result {Row : Type} (c : Cursor Row) : QueryResult Row :=
  match c.description with
  | some cols =>
      { columns := cols, data := c.rows, row_count := (c.rows.length : Int),
        affected_rows := 0 }
  | none =>
      { columns := [], data := [], row_count := c.rowcount,
        affected_rows := c.rowcount }

/-- `PostgresConnector.execute_query` (postgres_connector.py): with a
result set, columns/rows/count; otherwise the explicit
`{columns: [], data: [], row_count: 0, affected_rows: cursor.rowcount}`
branch. -/
def postgres_query_result {Row : Type} (c : Cursor Row) : QueryResult Row :=
  match c.description with
  | some cols =>
      { columns := cols, data := c.rows, row_count := (c.rows.length : Int),
        affected_rows := 0 }
  | none =>
      { columns := [], data := [], row_count := 0,
        affected_rows := c.rowcount }

/-! ## The service layer (`app/services/db_service.py`)

`execute_query_with_cache` / `get_ddl_with_cache` run
`get_db_connector → connect → execute_query/get_ddl → disconnect`
inside a single `try`, returning a success dictionary, or an error
dictionary from the catch-all `except`.  We record the connector
lifecycle as an event trace.  The two driver calls are modelled by
their outcomes (`Except`, the payload being `str(e)` of the raised
exception). -/

/-- Python `str.lower()` (ASCII case folding suffices for the
identifiers and dialect tags involved).  Defined on the character list
so that it evaluates by kernel reduction. -/
def py_lower (s : String) : String := String.mk (s.data.map Char.toLower)

inductive DbEvent
  | connect
  | execute
  | disconnect
deriving DecidableEq, Repr

/-- Outcomes of the connector calls made during one service call. -/
structure ConnectorRun (α : Type) where
  connectOutcome : Except String Unit
  opOutcome : Except String α

/-- `get_db_connector` (connector.py) recognises these dialect tags,
case-insensitively; any other tag raises
`ValueError("Unsupported database type: ...")`. -/
def supported_db_type (t : String) : Bool :=
  ["fabric", "odbc", "microsoft_fabric", "postgres", "postgresql"].contains (py_lower t)

/-- The dictionary returned by `execute_query_with_cache`. -/
structure ExecResult (Row : Type) where
  status : String
  result : Option (QueryResult Row)
  error : Option String
  query : String
  db_type : String
  cached : Bool

/-- Body of `execute_query_with_cache` (db_service.py), before the
`@redis_cache` decorator: the `try` block runs factory → `connect()` →
`execute_query(query)` → `disconnect()`; any exception is caught and
becomes the error dictionary.  The second component is the trace of
connector lifecycle events that actually happened. -/
def execute_query_with_cache_core {Row : Type} (cb : ConnectorRun (QueryResult Row))
    (query db_type : String) : ExecResult Row × List DbEvent :=
  if supported_db_type db_type then
    match cb.connectOutcome with
    | .error e =>
        ({ status := "error", result := none, error := some e,
           query := query, db_type := db_type, cached := false },
         [DbEvent.connect])
    | .ok _ =>
        match cb.opOutcome with
        | .error e =>
            ({ status := "error", result := none, error := some e,
               query := query, db_type := db_type, cached := false },
             [DbEvent.connect, DbEvent.execute])
        | .ok r =>
            ({ status := "success", result := some r, error := none,
               query := query, db_type := db_type, cached := false },
             [DbEvent.connect, DbEvent.execute, DbEvent.disconnect])
  else
    ({ status := "error", result := none,
       error := some ("Unsupported database type: " ++ db_type),
       query := query, db_type := db_type, cached := false },
     [])

/-- The dictionary returned by `get_ddl_with_cache`. -/
structure DdlResult where
  status : String
  ddl : Option String
  error : Option String
  object_name : String
  object_type : String
  db_type : String
  cached : Bool

/-- Body of `get_ddl_with_cache` (db_service.py), same control flow as
`execute_query_with_cache` with `get_ddl` in place of `execute_query`. -/
def get_ddl_with_cache_core (cb : ConnectorRun String)
    (object_name object_type db_type : String) : DdlResult × List DbEvent :=
  if supported_db_type db_type then
    match cb.connectOutcome with
    | .error e =>
        ({ status := "error", ddl := none, error := some e,
           object_name := object_name, object_type := object_type,
           db_type := db_type, cached := false },
         [DbEvent.connect])
    | .ok _ =>
        match cb.opOutcome with
        | .error e =>
            ({ status := "error", ddl := none, error := some e,
               object_name := object_name, object_type := object_type,
               db_type := db_type, cached := false },
             [DbEvent.connect, DbEvent.execute])
        | .ok d =>
            ({ status := "success", ddl := some d, error := none,
               object_name := object_name, object_type := object_type,
               db_type := db_type, cached := false },
             [DbEvent.connect, DbEvent.execute, DbEvent.disconnect])
  else
    ({ status := "error", ddl := none,
       error := some ("Unsupported database type: " ++ db_type),
       object_name := object_name, object_type := object_type,
       db_type := db_type, cached := false },
     [])

/-! ## The redis cache wrapper (`app/cache/redis_cache.py`)

The decorator pops `cache_enabled` / `cache_ttl` from the kwargs,
derives `cache_key = "db_api:" + func.__name__ + ":" + md5(key_data)`
from `key_data = f"{func.__name__}:{args_str}:{kwargs_str}"`, and then:
read the store inside a `try` (any failure, including an unparsable
entry, logged and treated as a miss); on a hit, set `cached = True` on
the loaded value and return it; on a miss, call the wrapped function
once, and inside a second `try` write a copy with `cached = False` to
the store (`setex`, failures swallowed), returning the live result.

The store is an association list keyed by the cache key (newest entry
first, as `setex` overwrites); JSON serialisation is the identity on
the stored value; TTL expiry and wall-clock time are not modelled.
`readOk` models whether the store read path raises (client construction
or `get`), `writeOk` whether `setex` raises; `md5` models
`hashlib.md5(·).hexdigest()`; `truthy` models the Python truthiness of
the result (`if cache_enabled and result:`) — always `true` for the
non-empty service dictionaries. -/

structure StoreOps where
  readOk : Bool
  writeOk : Bool

structure CacheOutcome (α : Type) where
  result : α
  store : List (String × α)
  calls : Nat

/-- The `wrapper` closure of the `redis_cache` decorator
(redis_cache.py): `setCached r b` models `r['cached'] = b`; `calls`
counts invocations of the wrapped function. -/
def redis_cache_wrapper {α : Type} (setCached : α → Bool → α)
    (md5 : String → String) (fname args_str kwargs_str : String)
    (cache_enabled : Bool) (ops : StoreOps)
    (func : α) (truthy : Bool) (store : List (String × α)) : CacheOutcome α :=
  if cache_enabled then
    let key_data := fname ++ ":" ++ args_str ++ ":" ++ kwargs_str
    let cache_key := "db_api:" ++ fname ++ ":" ++ md5 key_data
    let hit := if ops.readOk then store.lookup cache_key else none
    match hit with
    | some r => ⟨setCached r true, store, 0⟩
    | none =>
        let result := func
        let store' :=
          if ops.writeOk ∧ truthy then (cache_key, setCached result false) :: store
          else store
        ⟨result, store', 1⟩
  else
    ⟨func, store, 1⟩

/-- One call to the decorated `execute_query_with_cache`:
`redis_cache_wrapper` around `execute_query_with_cache_core`.  The
event trace of the underlying call is observed only when the wrapper
actually invokes the wrapped function.  `args_str`/`kwargs_str` stand
for `str(args)` / `str(sorted(kwargs.items()))`, functions of the
arguments, equal whenever the arguments are. -/
def execute_query_cached {Row : Type} (md5 : String → String)
    (cb : ConnectorRun (QueryResult Row)) (query db_type : String)
    (args_str kwargs_str : String) (cache_enabled : Bool) (ops : StoreOps)
    (store : List (String × ExecResult Row)) :
    CacheOutcome (ExecResult Row) × List DbEvent :=
  let live := execute_query_with_cache_core cb query db_type
  let o := redis_cache_wrapper (fun r b => { r with cached := b }) md5
    "execute_query_with_cache" args_str kwargs_str cache_enabled ops
    live.1 true store
  (o, if o.calls = 0 then [] else live.2)

/-- A concrete connector run (`Row = Unit`) whose `connect` succeeds
and whose `execute_query` raises `"boom"`. -/
def boomRun : ConnectorRun (QueryResult Unit) :=
  ⟨Except.ok (), Except.error "boom"⟩

/-- A concrete connector run (`Row = Unit`) whose two calls succeed,
the query returning an empty result set. -/
def okRun : ConnectorRun (QueryResult Unit) :=
  ⟨Except.ok (), Except.ok ⟨[], [], 0, 0⟩⟩

/-- Every branch of the service body marks its live result
`cached = false`. -/
theorem execute_query_core_cached_false {Row : Type}
    (cb : ConnectorRun (QueryResult Row)) (q t : String) :
    (execute_query_with_cache_core cb q t).1.cached = false := by
  rcases cb with ⟨co, oo⟩
  unfold execute_query_with_cache_core
  rcases co with e | u <;> rcases oo with e' | r <;> split <;> rfl

/-- C2: with caching enabled and an empty store, two successive calls of
the cached `execute_query_with_cache` with identical arguments run the
underlying connector exactly once (the combined connector-event trace is
that of a single uncached call; the first call invokes the wrapped
function, the second does not), and the second call's result is the
first one with only the `cached` flag flipped to `true`. -/
theorem cache_idempotence {Row : Type} (md5 : String → String)
    (cb : ConnectorRun (QueryResult Row)) (query db_type args_str kwargs_str : String) :
    let first := execute_query_cached md5 cb query db_type args_str kwargs_str
      true ⟨true, true⟩ []
    let second := execute_query_cached md5 cb query db_type args_str kwargs_str
      true ⟨true, true⟩ first.1.store
    second.1.result = { first.1.result with cached := true } ∧
    second.1.result.cached = true ∧
    first.1.calls = 1 ∧ second.1.calls = 0 ∧
    first.2 ++ second.2 = (execute_query_with_cache_core cb query db_type).2 := by
  simp [execute_query_cached, redis_cache_wrapper, List.lookup]

/-- C3 counterexample: a concrete run of `execute_query_with_cache`
(postgres dialect, `connect()` succeeds, `execute_query` raises) exits
with an error result while never calling `disconnect()`: the claim that
the connector is disconnected on every exit path is false on the code. -/
theorem execute_query_leaves_connection_open_cex :
    (execute_query_with_cache_core boomRun "SELECT 1" "postgres").1.status
      = "error" ∧
    (execute_query_with_cache_core boomRun "SELECT 1" "postgres").2
      = [DbEvent.connect, DbEvent.execute] ∧
    DbEvent.disconnect ∉
      (execute_query_with_cache_core boomRun "SELECT 1" "postgres").2 := by
  refine ⟨rfl, rfl, ?_⟩
  decide

/-- C3 amended: in both `execute_query_with_cache` and
`get_ddl_with_cache`, `disconnect()` runs exactly on the success path;
when `execute_query` / `get_ddl` (or `connect`, or the factory) raises,
the call exits through the `except` branch without disconnecting, so a
connected handle is left open on every failure exit. -/
theorem disconnect_iff_success {Row : Type} (cb : ConnectorRun (QueryResult Row))
    (cb' : ConnectorRun String) (q t n k : String) :
    (DbEvent.disconnect ∈ (execute_query_with_cache_core cb q t).2 ↔
      (execute_query_with_cache_core cb q t).1.status = "success") ∧
    (DbEvent.disconnect ∈ (get_ddl_with_cache_core cb' n k t).2 ↔
      (get_ddl_with_cache_core cb' n k t).1.status = "success") := by
  constructor
  · rcases cb with ⟨co, oo⟩
    unfold execute_query_with_cache_core
    rcases co with e | u <;> rcases oo with e' | r <;> split <;> simp
  · rcases cb' with ⟨co, oo⟩
    unfold get_ddl_with_cache_core
    rcases co with e | u <;> rcases oo with e' | r <;> split <;> simp

/-- C4 counterexample: an ODBC statement with no result set and a driver
mutation count of 5 yields `row_count = 5`, not the claimed
`row_count = 0` (the code copies `cursor.rowcount` into both
counters). -/
theorem odbc_row_count_cex :
    (odbc_query_result (⟨none, [], 5⟩ : Cursor Unit)).row_count = 5 ∧
    (odbc_query_result (⟨none, [], 5⟩ : Cursor Unit)).affected_rows = 5 ∧
    ¬ (odbc_query_result (⟨none, [], 5⟩ : Cursor Unit)).row_count = 0 := by
  refine ⟨rfl, rfl, ?_⟩
  decide

/-- C4 amended: with a result set, both connectors populate
columns/data/row_count from the result set with `affected_rows = 0`;
with no result set, the PostgreSQL connector returns `row_count = 0`
and `affected_rows = cursor.rowcount` as claimed, while the ODBC
connector sets *both* `row_count` and `affected_rows` to
`cursor.rowcount`.  For PostgreSQL at most one counter is ever
non-zero. -/
theorem execute_query_result_shape {Row : Type} (c : Cursor Row) :
    (∀ cols, c.description = some cols →
      odbc_query_result c
        = ⟨cols, c.rows, (c.rows.length : Int), 0⟩ ∧
      postgres_query_result c
        = ⟨cols, c.rows, (c.rows.length : Int), 0⟩) ∧
    (c.description = none →
      postgres_query_result c = ⟨[], [], 0, c.rowcount⟩ ∧
      odbc_query_result c = ⟨[], [], c.rowcount, c.rowcount⟩) ∧
    ((postgres_query_result c).row_count = 0 ∨
      (postgres_query_result c).affected_rows = 0) := by
  rcases c with ⟨d, rows, rc⟩
  rcases d with _ | cols <;>
    simp [odbc_query_result, postgres_query_result]

/-- C4 witness: the amended shape evaluated on two concrete cursors. -/
theorem execute_query_result_shape_witness :
    odbc_query_result (⟨some ["a"], [()], -1⟩ : Cursor Unit)
      = ⟨["a"], [()], 1, 0⟩ ∧
    postgres_query_result (⟨none, [], 3⟩ : Cursor Unit) = ⟨[], [], 0, 3⟩ :=
  ⟨((execute_query_result_shape ⟨some ["a"], [()], -1⟩).1 ["a"] rfl).1,
   ((execute_query_result_shape (⟨none, [], 3⟩ : Cursor Unit)).2.1 rfl).1⟩

/-- C9: a failing cache store never reaches the caller of the cached
`execute_query_with_cache`: a read failure is a miss — the operation
runs and its live result comes back unchanged, `cached = false`; a
write failure is swallowed — the live result still comes back and the
store is untouched. -/
theorem cache_store_failure_resilience {Row : Type} (md5 : String → String)
    (cb : ConnectorRun (QueryResult Row)) (q t a k : String)
    (ops : StoreOps) (store : List (String × ExecResult Row)) :
    (ops.readOk = false →
      (execute_query_cached md5 cb q t a k true ops store).1.result
        = (execute_query_with_cache_core cb q t).1 ∧
      (execute_query_cached md5 cb q t a k true ops store).1.result.cached = false ∧
      (execute_query_cached md5 cb q t a k true ops store).1.calls = 1) ∧
    (ops.writeOk = false → store = [] →
      (execute_query_cached md5 cb q t a k true ops store).1.result
        = (execute_query_with_cache_core cb q t).1 ∧
      (execute_query_cached md5 cb q t a k true ops store).1.store = store ∧
      (execute_query_cached md5 cb q t a k true ops store).1.calls = 1) := by
  rcases ops with ⟨ro, wo⟩
  constructor
  · intro hro
    subst hro
    refine ⟨rfl, ?_, rfl⟩
    simp [execute_query_cached, redis_cache_wrapper,
      execute_query_core_cached_false]
  · intro hwo hst
    subst hwo
    subst hst
    rcases ro with _ | _ <;>
      simp [execute_query_cached, redis_cache_wrapper, List.lookup]

/-- C9 witness: a concrete call with both the read and the write path of
the store failing still returns the live (uncached) result. -/
theorem cache_store_failure_resilience_witness :
    ((execute_query_cached (fun _ => "") okRun "q" "postgres" "a" "k"
        true ⟨false, false⟩ []).1.result
      = (execute_query_with_cache_core okRun "q" "postgres").1 ∧
     (execute_query_cached (fun _ => "") okRun "q" "postgres" "a" "k"
        true ⟨false, false⟩ []).1.result.cached = false) ∧
    (execute_query_cached (fun _ => "") okRun "q" "postgres" "a" "k"
        true ⟨false, false⟩ []).1.store = [] :=
  ⟨⟨((cache_store_failure_resilience (fun _ => "") okRun "q" "postgres" "a" "k"
        ⟨false, false⟩ []).1 rfl).1,
    ((cache_store_failure_resilience (fun _ => "") okRun "q" "postgres" "a" "k"
        ⟨false, false⟩ []).1 rfl).2.1⟩,
   ((cache_store_failure_resilience (fun _ => "") okRun "q" "postgres" "a" "k"
        ⟨false, false⟩ []).2 rfl rfl).2.1⟩

/-- C10: error results are cached exactly like success results: when the
service body reports `status = "error"` (a truthy dictionary), the
wrapper still writes it to the store under the derived key, and a
second call with identical arguments returns the stored error with
`cached = true` without re-running the operation. -/
theorem error_result_cached {Row : Type} (md5 : String → String)
    (cb : ConnectorRun (QueryResult Row)) (q t a k : String)
    (herr : (execute_query_with_cache_core cb q t).1.status = "error") :
    let first := execute_query_cached md5 cb q t a k true ⟨true, true⟩ []
    let second := execute_query_cached md5 cb q t a k true ⟨true, true⟩ first.1.store
    first.1.result.status = "error" ∧
    first.1.store
      = [("db_api:execute_query_with_cache:"
            ++ md5 ("execute_query_with_cache:" ++ a ++ ":" ++ k),
          { first.1.result with cached := false })] ∧
    second.1.result = { first.1.result with cached := true } ∧
    second.1.result.status = "error" ∧
    second.1.calls = 0 := by
  refine ⟨herr, ?_, ?_, ?_, ?_⟩ <;>
    simp [execute_query_cached, redis_cache_wrapper, List.lookup, herr]

/-- C10 witness: a failing `execute_query` produces an error dictionary
whose cached copy satisfies the theorem at concrete inputs. -/
theorem error_result_cached_witness :
    ((execute_query_cached (fun _ => "h") boomRun "q" "postgres" "a" "k"
        true ⟨true, true⟩
        ((execute_query_cached (fun _ => "h") boomRun "q" "postgres" "a" "k"
            true ⟨true, true⟩ []).1.store)).1.result.status = "error" ∧
     (execute_query_cached (fun _ => "h") boomRun "q" "postgres" "a" "k"
        true ⟨true, true⟩
        ((execute_query_cached (fun _ => "h") boomRun "q" "postgres" "a" "k"
            true ⟨true, true⟩ []).1.store)).1.calls = 0) :=
  ⟨(error_result_cached (fun _ => "h") boomRun
      "q" "postgres" "a" "k" rfl).2.2.2.1,
   (error_result_cached (fun _ => "h") boomRun
      "q" "postgres" "a" "k" rfl).2.2.2.2⟩

/-! ## Connector connection lifecycle
(`base_connector.py`, `odbc_connector.py`, `postgres_connector.py`)

A connector holds a connection string and an optional driver handle
(`self.connection`, initialised to `None` by `BaseConnector.__init__`).
`connect()` in both variants assigns
`self.connection = driver.connect(...)` unconditionally — there is no
already-connected check — wrapping driver/parse failures into a
`ConnectionError`.  `execute_query` starts with
`if not self.connection: self.connect()`.  `ok`/`err` model whether the
driver (or, for PostgreSQL, the connection-string parser) raises, and
the diagnostic text; `driver_handle` is the handle a successful driver
call returns. -/

structure BaseConnector (H : Type) where
  connection_string : String
  connection : Option H
deriving DecidableEq, Repr

/-- `ODBCConnector.connect`: `self.connection = pyodbc.connect(...)`,
errors wrapped into `ConnectionError(f"Failed to connect to ODBC
database: ...")`. -/
def odbc_connect {H : Type} (c : BaseConnector H) (ok : Bool) (err : String)
    (driver_handle : H) : Except String (BaseConnector H) :=
  if ok then Except.ok { c with connection := some driver_handle }
  else Except.error ("Failed to connect to ODBC database: " ++ err)

/-- `PostgresConnector.connect`: parse the connection string, then
`self.connection = psycopg2.connect(**params)`; both failure modes are
wrapped into `ConnectionError(f"Failed to connect to PostgreSQL
database: ...")`. -/
def postgres_connect {H : Type} (c : BaseConnector H) (ok : Bool) (err : String)
    (driver_handle : H) : Except String (BaseConnector H) :=
  if ok then Except.ok { c with connection := some driver_handle }
  else Except.error ("Failed to connect to PostgreSQL database: " ++ err)

/-- The `if not self.connection: self.connect()` prelude of
`execute_query` in both connectors. -/
def execute_query_prelude {H : Type} (c : BaseConnector H)
    (connect : BaseConnector H → Except String (BaseConnector H)) :
    Except String (BaseConnector H) :=
  match c.connection with
  | some _ => Except.ok c
  | none => connect c

/-- C5 counterexample: a connector already holding handle `1` that calls
`connect()` again (driver succeeds, returning handle `2`) ends up with
handle `2` — the call re-establishes the connection and replaces the
held handle, for both variants, so it is not a no-op. -/
theorem connect_reconnects_cex :
    odbc_connect (⟨"cs", some 1⟩ : BaseConnector Nat) true "" 2
      = Except.ok ⟨"cs", some 2⟩ ∧
    odbc_connect (⟨"cs", some 1⟩ : BaseConnector Nat) true "" 2
      ≠ Except.ok ⟨"cs", some 1⟩ ∧
    postgres_connect (⟨"cs", some 1⟩ : BaseConnector Nat) true "" 2
      = Except.ok ⟨"cs", some 2⟩ := by
  refine ⟨rfl, ?_, rfl⟩
  intro h
  simp [odbc_connect] at h

/-- C5 amended: `connect()` unconditionally re-establishes the driver
connection and replaces the held handle, connected or not; the
idempotence the spec describes lives in `execute_query`, whose
`if not self.connection: self.connect()` prelude is a no-op on an
already-connected instance. -/
theorem connect_replaces_connection {H : Type} (c : BaseConnector H)
    (err : String) (driver_handle : H) :
    odbc_connect c true err driver_handle
      = Except.ok { c with connection := some driver_handle } ∧
    postgres_connect c true err driver_handle
      = Except.ok { c with connection := some driver_handle } ∧
    (∀ h0, c.connection = some h0 →
      execute_query_prelude c (fun c' => odbc_connect c' true err driver_handle)
        = Except.ok c ∧
      execute_query_prelude c (fun c' => postgres_connect c' true err driver_handle)
        = Except.ok c) := by
  refine ⟨rfl, rfl, ?_⟩
  intro h0 hc
  unfold execute_query_prelude
  rw [hc]
  exact ⟨rfl, rfl⟩

/-- C5 witness: on a connected instance the `execute_query` prelude of
both connectors keeps the held handle. -/
theorem connect_replaces_connection_witness :
    execute_query_prelude (⟨"cs", some 1⟩ : BaseConnector Nat)
      (fun c' => odbc_connect c' true "" 2) = Except.ok ⟨"cs", some 1⟩ ∧
    execute_query_prelude (⟨"cs", some 1⟩ : BaseConnector Nat)
      (fun c' => postgres_connect c' true "" 2) = Except.ok ⟨"cs", some 1⟩ :=
  (connect_replaces_connection (⟨"cs", some 1⟩ : BaseConnector Nat) "" 2).2.2 1 rfl

/-! ## PostgreSQL single-table DDL resolution
(`PostgresConnector.get_ddl`, `kind = table`, `name ≠ "*"`)

The oracles model the three catalog interactions:
`exists_ n` is the boolean of `SELECT to_regclass('n') IS NOT NULL`
(`to_regclass` returns NULL, not an error, for unknown names);
`get_tabledef n` is the `SELECT pg_get_tabledef('n'::regclass::oid)`
query — `.error e` a raised exception with text `e`, `.ok none` an
empty row set, `.ok (some d)` the DDL row; `ci_lookup s` is the
case-insensitive `pg_tables` query on the lowered search name `s`
(the code issues one of two SQL shapes depending on whether `s`
contains a dot; both return a `schemaname || '.' || tablename`
`full_name` row, which the oracle abstracts). -/

/-- The case/schema fallback probes of `get_ddl`, in source order:
exact name; lowercase; `public.` + exact; `public.` + lowercase; the
original name if nothing matched. -/
def pg_resolve_name (exists_ : String → Bool) (object_name : String) : String :=
  if exists_ object_name then object_name
  else
    let lowercase_name := py_lower object_name
    if exists_ lowercase_name then lowercase_name
    else if exists_ ("public." ++ object_name) then "public." ++ object_name
    else if exists_ ("public." ++ lowercase_name) then "public." ++ lowercase_name
    else object_name

/-- Modelled from the spec's words (for comparison with
`pg_resolve_name`): the fallback chain as a list whose *first* match
wins. -/
def pg_fallback_chain (object_name : String) : List String :=
  [object_name, py_lower object_name,
   "public." ++ object_name, "public." ++ py_lower object_name]

/-- Spec-side resolution: first match of the chain, else the name
unchanged. -/
def pg_resolve_name_spec (exists_ : String → Bool) (object_name : String) : String :=
  ((pg_fallback_chain object_name).find? exists_).getD object_name

/-- The single-table branch of `PostgresConnector.get_ddl`: resolve,
query the DDL; on a raised error, recover via the case-insensitive
catalog lookup and retry; every failure ends in a comment string (the
outer `try/except` and the nested `try/except` catch everything, which
is why this model is total). -/
def pg_table_ddl_single (exists_ : String → Bool)
    (get_tabledef ci_lookup : String → Except String (Option String))
    (object_name : String) : String :=
  let resolved := pg_resolve_name exists_ object_name
  match get_tabledef resolved with
  | Except.ok (some ddl) => ddl
  | Except.ok none => "-- Table " ++ resolved ++ " definition not found"
  | Except.error e =>
      let search_name := py_lower resolved
      match ci_lookup search_name with
      | Except.error e2 => "-- Error getting table definition: " ++ e2
      | Except.ok none => "-- Table '" ++ resolved ++ "' not found. Error: " ++ e
      | Except.ok (some full_name) =>
          match get_tabledef full_name with
          | Except.error e2 => "-- Error getting table definition: " ++ e2
          | Except.ok (some ddl) => ddl
          | Except.ok none => "-- Table '" ++ resolved ++ "' not found. Error: " ++ e

/-- C6: name resolution follows the fallback chain with the first match
winning (the nested conditionals equal the spec's first-match-of-list
semantics); a raised DDL error is recovered by the case-insensitive
lookup and the retried DDL is returned; and every exhausted path ends
in a descriptive `-- ... not found` comment (or, when the recovery
lookup itself raises, an `-- Error getting table definition:` comment)
— never an uncaught exception, the model being total. -/
theorem pg_get_ddl_fallback_chain (exists_ : String → Bool)
    (get_tabledef ci_lookup : String → Except String (Option String))
    (object_name : String) :
    pg_resolve_name exists_ object_name = pg_resolve_name_spec exists_ object_name ∧
    (∀ e m d, get_tabledef (pg_resolve_name exists_ object_name) = Except.error e →
      ci_lookup (py_lower (pg_resolve_name exists_ object_name)) = Except.ok (some m) →
      get_tabledef m = Except.ok (some d) →
      pg_table_ddl_single exists_ get_tabledef ci_lookup object_name = d) ∧
    (get_tabledef (pg_resolve_name exists_ object_name) = Except.ok none →
      pg_table_ddl_single exists_ get_tabledef ci_lookup object_name
        = "-- Table " ++ pg_resolve_name exists_ object_name ++ " definition not found") ∧
    (∀ e, get_tabledef (pg_resolve_name exists_ object_name) = Except.error e →
      ci_lookup (py_lower (pg_resolve_name exists_ object_name)) = Except.ok none →
      pg_table_ddl_single exists_ get_tabledef ci_lookup object_name
        = "-- Table '" ++ pg_resolve_name exists_ object_name ++ "' not found. Error: " ++ e) ∧
    (∀ e m, get_tabledef (pg_resolve_name exists_ object_name) = Except.error e →
      ci_lookup (py_lower (pg_resolve_name exists_ object_name)) = Except.ok (some m) →
      get_tabledef m = Except.ok none →
      pg_table_ddl_single exists_ get_tabledef ci_lookup object_name
        = "-- Table '" ++ pg_resolve_name exists_ object_name ++ "' not found. Error: " ++ e) ∧
    (∀ e e2, get_tabledef (pg_resolve_name exists_ object_name) = Except.error e →
      ci_lookup (py_lower (pg_resolve_name exists_ object_name)) = Except.error e2 →
      pg_table_ddl_single exists_ get_tabledef ci_lookup object_name
        = "-- Error getting table definition: " ++ e2) := by
  refine ⟨?_, ?_, ?_, ?_, ?_, ?_⟩
  · unfold pg_resolve_name pg_resolve_name_spec pg_fallback_chain
    cases h1 : exists_ object_name <;>
    cases h2 : exists_ (py_lower object_name) <;>
    cases h3 : exists_ ("public." ++ object_name) <;>
    cases h4 : exists_ ("public." ++ py_lower object_name) <;>
      simp [List.find?, h1, h2, h3, h4]
  · intro e m d h1 h2 h3
    simp only [pg_table_ddl_single, h1, h2, h3]
  · intro h1
    simp only [pg_table_ddl_single, h1]
  · intro e h1 h2
    simp only [pg_table_ddl_single, h1, h2]
  · intro e m h1 h2 h3
    simp only [pg_table_ddl_single, h1, h2, h3]
  · intro e e2 h1 h2
    simp only [pg_table_ddl_single, h1, h2]

/-- C6 witness: a table stored as `public.foo`, requested as `"Foo"`:
no probe of the chain matches, the direct DDL query raises, the
case-insensitive lookup recovers `public.foo`, and the retried DDL is
returned. -/
theorem pg_get_ddl_fallback_chain_witness :
    pg_table_ddl_single (fun _ => false)
      (fun n => if n == "public.foo" then Except.ok (some "CREATE TABLE public.foo ();")
                else Except.error "relation does not exist")
      (fun _ => Except.ok (some "public.foo")) "Foo"
      = "CREATE TABLE public.foo ();" :=
  (pg_get_ddl_fallback_chain (fun _ => false)
      (fun n => if n == "public.foo" then Except.ok (some "CREATE TABLE public.foo ();")
                else Except.error "relation does not exist")
      (fun _ => Except.ok (some "public.foo")) "Foo").2.1
    "relation does not exist" "public.foo" "CREATE TABLE public.foo ();"
    rfl rfl rfl

/-! ## ODBC DDL synthesis (`ODBCConnector.get_ddl`, `kind = table`)

The catalog join query returns, per column and in ordinal
(`ORDER BY c.column_id`) order: name, type name, `max_length`
(an `Int`: `-1` means `MAX`), precision, scale, nullability and
identity flags.  The primary-key query returns `(index_name,
column_name)` rows ordered by key ordinal; the foreign-key query
returns one row per constraint column, grouped by constraint name in
first-appearance (Python `dict` insertion) order. -/

structure OdbcColumn where
  column_name : String
  data_type : String
  max_length : Int
  precision : Nat
  scale : Nat
  is_nullable : Bool
  is_identity : Bool
deriving DecidableEq, Repr

structure PkRow where
  index_name : String
  column_name : String
deriving DecidableEq, Repr

structure FkRow where
  fk_name : String
  parent_table : String
  parent_column : String
  referenced_table : String
  referenced_column : String
deriving DecidableEq, Repr

/-- One column line of the `CREATE TABLE` body (without the separating
comma): name, type, length modifier for character types (`MAX` when
`max_length = -1`), `(precision, scale)` for decimal types, then
`NOT NULL`/`NULL`, then `IDENTITY(1,1)`. -/
def odbc_render_column (col : OdbcColumn) : String :=
  "    " ++ col.column_name ++ " " ++ col.data_type
  ++ (if ["varchar", "nvarchar", "char", "nchar"].contains col.data_type then
        "(" ++ (if col.max_length ≠ -1 then toString col.max_length else "MAX") ++ ")"
      else if ["decimal", "numeric"].contains col.data_type then
        "(" ++ toString col.precision ++ ", " ++ toString col.scale ++ ")"
      else "")
  ++ (if col.is_nullable then " NULL" else " NOT NULL")
  ++ (if col.is_identity then " IDENTITY(1,1)" else "")

/-- The column loop: `",\n"` after every non-last column. -/
def odbc_render_columns : List OdbcColumn → String
  | [] => ""
  | [c] => odbc_render_column c
  | c :: rest => odbc_render_column c ++ ",\n" ++ odbc_render_columns rest

/-- The per-constraint data accumulated by the foreign-key grouping
loop. -/
structure FkData where
  parent_table : String
  referenced_table : String
  parent_columns : List String
  referenced_columns : List String
deriving DecidableEq, Repr

/-- One step of the `fk_dict` grouping loop: append the row's columns
to an existing constraint entry, or open a new entry at the end
(Python dicts preserve insertion order). -/
def fk_upd (acc : List (String × FkData)) (row : FkRow) : List (String × FkData) :=
  if acc.any (fun p => p.1 == row.fk_name) then
    acc.map (fun p =>
      if p.1 == row.fk_name then
        (p.1, { p.2 with
                parent_columns := p.2.parent_columns ++ [row.parent_column],
                referenced_columns := p.2.referenced_columns ++ [row.referenced_column] })
      else p)
  else
    acc ++ [(row.fk_name,
             ⟨row.parent_table, row.referenced_table,
              [row.parent_column], [row.referenced_column]⟩)]

def fk_group (rows : List FkRow) : List (String × FkData) :=
  rows.foldl fk_upd []

/-- The two `ddl +=` statements emitted per distinct foreign key. -/
def fk_clause (p : String × FkData) : String :=
  "\n\nALTER TABLE " ++ p.2.parent_table ++ " ADD CONSTRAINT " ++ p.1 ++ " "
    ++ "FOREIGN KEY (" ++ String.intercalate ", " p.2.parent_columns
    ++ ") REFERENCES " ++ p.2.referenced_table
    ++ " (" ++ String.intercalate ", " p.2.referenced_columns ++ ");"

/-- The single-table branch of `ODBCConnector.get_ddl`: the
`CREATE TABLE` block in ordinal column order, the primary-key
`ALTER TABLE` when a primary key exists (constraint name from the first
row, columns joined with `", "`), then one `ALTER TABLE ... FOREIGN
KEY` per grouped constraint. -/
def odbc_table_ddl (object_name : String) (cols : List OdbcColumn)
    (pk : List PkRow) (fk : List FkRow) : String :=
  let base := "CREATE TABLE " ++ object_name ++ " (\n"
    ++ odbc_render_columns cols ++ "\n);"
  let pkClause :=
    match pk with
    | [] => ""
    | first :: _ =>
        "\n\nALTER TABLE " ++ object_name ++ " ADD CONSTRAINT " ++ first.index_name
          ++ " PRIMARY KEY (" ++ String.intercalate ", " (pk.map PkRow.column_name) ++ ");"
  (fk_group fk).foldl (fun acc p => acc ++ fk_clause p) (base ++ pkClause)

/-! String utilities of the model: Python `str.strip()`, line
splitting, suffix/substring tests — all on the character list so they
evaluate by kernel reduction. -/

def is_py_space (c : Char) : Bool :=
  c == ' ' || c == '\t' || c == '\n' || c == '\r' || c == '\x0b' || c == '\x0c'

/-- Python `str.strip()`. -/
def py_strip (s : String) : String :=
  String.mk (((s.data.dropWhile is_py_space).reverse.dropWhile is_py_space).reverse)

def split_newlines : List Char → List (List Char)
  | [] => [[]]
  | c :: rest =>
      if c = '\n' then [] :: split_newlines rest
      else
        match split_newlines rest with
        | [] => [[c]]
        | l :: ls => (c :: l) :: ls

/-- The lines of a string (separator `'\n'`). -/
def py_lines (s : String) : List String :=
  (split_newlines s.data).map String.mk

def str_ends_with (s suffix : String) : Bool :=
  suffix.data.isSuffixOf s.data

def starts_with_chars : List Char → List Char → Bool
  | [], _ => true
  | _ :: _, [] => false
  | a :: as, b :: bs => a == b && starts_with_chars as bs

def contains_chars (needle : List Char) : List Char → Bool
  | [] => needle.isEmpty
  | c :: rest => starts_with_chars needle (c :: rest) || contains_chars needle rest

def str_contains (s sub : String) : Bool :=
  contains_chars sub.data s.data

/-- The `orders` catalog of the claim: `id` integer identity not null,
`total` numeric(10, 2) nullable, in that ordinal order. -/
def ordersColumns : List OdbcColumn :=
  [⟨"id", "int", 4, 10, 0, false, true⟩,
   ⟨"total", "numeric", 9, 10, 2, true, false⟩]

def ordersPk : List PkRow := [⟨"PK_orders", "id"⟩]

/-- C7 counterexample: on the `orders` catalog the `id` line of the
generated DDL is `"    id int NOT NULL IDENTITY(1,1),"` — `id` is not
the last column, so the line carries the separating comma and does not
end with `"NOT NULL IDENTITY(1,1)"` as claimed. -/
theorem odbc_get_ddl_orders_cex :
    (py_lines (odbc_table_ddl "orders" ordersColumns ordersPk [])).get? 1
      = some "    id int NOT NULL IDENTITY(1,1)," ∧
    str_ends_with "    id int NOT NULL IDENTITY(1,1)," "NOT NULL IDENTITY(1,1)"
      = false := by
  exact ⟨rfl, by decide⟩

/-- C7 amended: the `orders` DDL is the `CREATE TABLE orders (` block
with the columns in ordinal order — the `id` line ending with
`NOT NULL IDENTITY(1,1)` plus the separating comma, the `total` line
containing `(10, 2)` and `NULL` — followed by the primary-key
`ALTER TABLE ... PRIMARY KEY (id);` statement; a character column with
`max_length = -1` renders as `(MAX)`. -/
theorem odbc_get_ddl_orders :
    odbc_table_ddl "orders" ordersColumns ordersPk []
      = "CREATE TABLE orders (\n    id int NOT NULL IDENTITY(1,1),\n    total numeric(10, 2) NULL\n);\n\nALTER TABLE orders ADD CONSTRAINT PK_orders PRIMARY KEY (id);" ∧
    (py_lines (odbc_table_ddl "orders" ordersColumns ordersPk [])).get? 0
      = some "CREATE TABLE orders (" ∧
    (py_lines (odbc_table_ddl "orders" ordersColumns ordersPk [])).get? 1
      = some "    id int NOT NULL IDENTITY(1,1)," ∧
    str_ends_with "    id int NOT NULL IDENTITY(1,1)," "NOT NULL IDENTITY(1,1)," = true ∧
    (py_lines (odbc_table_ddl "orders" ordersColumns ordersPk [])).get? 2
      = some "    total numeric(10, 2) NULL" ∧
    str_contains "    total numeric(10, 2) NULL" "(10, 2)" = true ∧
    str_contains "    total numeric(10, 2) NULL" " NULL" = true ∧
    str_ends_with (odbc_table_ddl "orders" ordersColumns ordersPk [])
      "ALTER TABLE orders ADD CONSTRAINT PK_orders PRIMARY KEY (id);" = true ∧
    odbc_render_column ⟨"notes", "varchar", -1, 0, 0, true, false⟩
      = "    notes varchar(MAX) NULL" := by
  refine ⟨rfl, rfl, rfl, by decide, rfl, by decide, by decide, by decide, rfl⟩

/-! ## ODBC wildcard DDL (`get_ddl(name="*", kind="table")`)

The catalog query `SELECT name FROM sys.tables ORDER BY name` yields
the table names alphabetically; a table of the model carries the
catalog data the per-table recursion would see.  The loop appends
`"\n\n" + table_ddl` per table to an initially empty string and the
result is `strip()`ped. -/

structure OdbcTable where
  name : String
  cols : List OdbcColumn
  pk : List PkRow
  fk : List FkRow
deriving DecidableEq, Repr

/-- The recursive `self.get_ddl(table_name, "table")` call of the
wildcard loop. -/
def odbc_ddl_of (t : OdbcTable) : String :=
  odbc_table_ddl t.name t.cols t.pk t.fk

/-- The wildcard branch of `ODBCConnector.get_ddl`: placeholder comment
when the catalog has no tables, else the stripped concatenation built
by the loop. -/
def odbc_ddl_star (tables : List OdbcTable) : String :=
  if tables.isEmpty then "-- No tables found in database"
  else py_strip (tables.foldl (fun acc t => acc ++ ("\n\n" ++ odbc_ddl_of t)) "")

/-- Modelled from the spec's words: per-object DDL blocks "separated by
blank lines". -/
def blank_line_concat : List String → String
  | [] => ""
  | [d] => d
  | d :: rest => d ++ "\n\n" ++ blank_line_concat rest

/-- Lexicographic (alphabetical) order on character lists, modelling the
collation of `ORDER BY name`. -/
def lex_le : List Char → List Char → Bool
  | [], _ => true
  | _ :: _, [] => false
  | a :: as, b :: bs => if a < b then true else if a = b then lex_le as bs else false

/-- The names are in the order the catalog query returns them:
alphabetically non-decreasing. -/
def sorted_names : List String → Bool
  | [] => true
  | [_] => true
  | a :: b :: rest => lex_le a.data b.data && sorted_names (b :: rest)

def join_str {α : Type} (g : α → String) : List α → String
  | [] => ""
  | x :: xs => g x ++ join_str g xs

theorem foldl_append_eq {α : Type} (g : α → String) :
    ∀ (l : List α) (acc : String),
      l.foldl (fun a x => a ++ g x) acc = acc ++ join_str g l
  | [], acc => by simp [join_str, String.append_empty]
  | x :: xs, acc => by
      simp only [List.foldl, join_str]
      rw [foldl_append_eq g xs (acc ++ g x), String.append_assoc]

theorem join_str_sep_eq :
    ∀ (t : OdbcTable) (rest : List OdbcTable),
      join_str (fun x => "\n\n" ++ odbc_ddl_of x) (t :: rest)
        = "\n\n" ++ blank_line_concat ((t :: rest).map odbc_ddl_of)
  | t, [] => by
      simp [join_str, blank_line_concat, String.append_empty]
  | t, r :: rs => by
      have ih := join_str_sep_eq r rs
      simp only [join_str] at ih ⊢
      rw [ih]
      simp only [List.map, blank_line_concat, String.append_assoc]

/-- The single-table DDL always starts with `"CREATE TABLE "`. -/
theorem odbc_table_ddl_eq_create (n : String) (cols : List OdbcColumn)
    (pk : List PkRow) (fk : List FkRow) :
    ∃ w, odbc_table_ddl n cols pk fk = "CREATE TABLE " ++ w := by
  unfold odbc_table_ddl
  rw [foldl_append_eq fk_clause]
  refine ⟨n ++ (" (\n" ++ (odbc_render_columns cols ++ ("\n);"
    ++ ((match pk with
        | [] => ""
        | first :: _ =>
            "\n\nALTER TABLE " ++ n ++ " ADD CONSTRAINT " ++ first.index_name
              ++ " PRIMARY KEY (" ++ String.intercalate ", " (pk.map PkRow.column_name) ++ ");")
      ++ join_str fk_clause (fk_group fk))))), ?_⟩
  simp [String.append_assoc]

/-- The last character of a string. -/
def EndsSemi (s : String) : Prop := s.data.getLast? = some ';'

theorem endsSemi_append (s t : String) (h : EndsSemi t) : EndsSemi (s ++ t) := by
  unfold EndsSemi at *
  have hne : t.data ≠ [] := by
    intro hn
    rw [hn] at h
    simp at h
  rw [String.data_append, List.getLast?_append_of_ne_nil _ hne]
  exact h

theorem endsSemi_fk_clause (p : String × FkData) : EndsSemi (fk_clause p) := by
  unfold fk_clause
  exact endsSemi_append _ ");" rfl

theorem endsSemi_fold_fk :
    ∀ (l : List (String × FkData)) (acc : String), EndsSemi acc →
      EndsSemi (acc ++ join_str fk_clause l)
  | [], acc, hacc => by
      simpa [join_str, String.append_empty] using hacc
  | x :: xs, acc, hacc => by
      simp only [join_str]
      rw [← String.append_assoc]
      exact endsSemi_fold_fk xs (acc ++ fk_clause x)
        (endsSemi_append _ _ (endsSemi_fk_clause x))

/-- The single-table DDL always ends with `';'`. -/
theorem odbc_table_ddl_ends_semi (n : String) (cols : List OdbcColumn)
    (pk : List PkRow) (fk : List FkRow) :
    EndsSemi (odbc_table_ddl n cols pk fk) := by
  unfold odbc_table_ddl
  rw [foldl_append_eq fk_clause]
  apply endsSemi_fold_fk
  cases pk with
  | nil =>
      rw [String.append_empty]
      exact endsSemi_append _ "\n);" rfl
  | cons first rest =>
      exact endsSemi_append _ _ (endsSemi_append _ ");" rfl)

theorem py_strip_double_newline (s : String) (c1 c2 : Char)
    (h1 : s.data.head? = some c1) (hc1 : is_py_space c1 = false)
    (h2 : s.data.getLast? = some c2) (hc2 : is_py_space c2 = false) :
    py_strip ("\n\n" ++ s) = s := by
  obtain ⟨tl, hs⟩ : ∃ tl, s.data = c1 :: tl := by
    cases hdata : s.data with
    | nil => rw [hdata] at h1; simp at h1
    | cons a l =>
        rw [hdata] at h1
        simp only [List.head?] at h1
        exact ⟨l, by rw [Option.some_inj.1 h1]⟩
  obtain ⟨rl, hr⟩ : ∃ rl, (c1 :: tl).reverse = c2 :: rl := by
    have hrev : (c1 :: tl).reverse.head? = some c2 := by
      rw [List.head?_reverse, ← hs]
      exact h2
    cases hrd : (c1 :: tl).reverse with
    | nil => rw [hrd] at hrev; simp at hrev
    | cons a l =>
        rw [hrd] at hrev
        simp only [List.head?] at hrev
        exact ⟨l, by rw [Option.some_inj.1 hrev]⟩
  have hsp : is_py_space '\n' = true := rfl
  have hfront : List.dropWhile is_py_space ('\n' :: '\n' :: c1 :: tl) = c1 :: tl := by
    rw [List.dropWhile_cons, if_pos hsp, List.dropWhile_cons, if_pos hsp,
        List.dropWhile_cons, if_neg (by rw [hc1]; exact Bool.false_ne_true)]
  have htail : List.dropWhile is_py_space (c2 :: rl) = c2 :: rl := by
    rw [List.dropWhile_cons, if_neg (by rw [hc2]; exact Bool.false_ne_true)]
  unfold py_strip
  rw [String.data_append]
  have hnn : ("\n\n" : String).data = ['\n', '\n'] := rfl
  rw [hnn, hs]
  have hconc : (['\n', '\n'] : List Char) ++ (c1 :: tl) = '\n' :: '\n' :: c1 :: tl := rfl
  rw [hconc, hfront, hr, htail, ← hr, List.reverse_reverse, ← hs]

/-- C8: the wildcard table DDL of the ODBC connector: an empty catalog
yields the `-- No tables found in database` placeholder (not the empty
string); a non-empty catalog (names in the alphabetical order of
`ORDER BY name`) yields exactly the per-table DDL blocks separated by
blank lines, the surrounding whitespace stripped away. -/
theorem odbc_ddl_star_spec (tables : List OdbcTable)
    (hsorted : sorted_names (tables.map OdbcTable.name) = true) :
    (tables = [] →
      odbc_ddl_star tables = "-- No tables found in database" ∧
      odbc_ddl_star tables ≠ "") ∧
    (tables ≠ [] →
      odbc_ddl_star tables = blank_line_concat (tables.map odbc_ddl_of)) := by
  constructor
  · rintro rfl
    exact ⟨rfl, by decide⟩
  · intro hne
    obtain ⟨t, rest, rfl⟩ : ∃ t rest, tables = t :: rest := by
      cases tables with
      | nil => exact absurd rfl hne
      | cons t rest => exact ⟨t, rest, rfl⟩
    unfold odbc_ddl_star
    rw [if_neg (by simp), foldl_append_eq (fun x => "\n\n" ++ odbc_ddl_of x),
      String.empty_append, join_str_sep_eq t rest]
    obtain ⟨w, hw⟩ := odbc_table_ddl_eq_create t.name t.cols t.pk t.fk
    apply py_strip_double_newline _ 'C' ';'
    · cases rest with
      | nil =>
          simp only [List.map, blank_line_concat, odbc_ddl_of, hw,
            String.data_append]
          rfl
      | cons r rs =>
          simp only [List.map, blank_line_concat]
          have hA : (odbc_ddl_of t).data
              = 'C' :: ("REATE TABLE ".data ++ w.data) := by
            simp only [odbc_ddl_of, hw, String.data_append]
            rfl
          rw [String.data_append, String.data_append, hA]
          rfl
    · rfl
    · have : ∀ (l : List String), (∀ d ∈ l, EndsSemi d) → l ≠ [] →
          EndsSemi (blank_line_concat l) := by
        intro l
        induction l with
        | nil => intro _ h; exact absurd rfl h
        | cons d ds ih =>
            intro hall _
            cases ds with
            | nil => exact hall d (by simp)
            | cons e es =>
                simp only [blank_line_concat]
                exact endsSemi_append _ _ (ih (fun x hx => hall x (by simp [hx]))
                  (by simp))
      exact this ((t :: rest).map odbc_ddl_of)
        (by
          intro d hd
          simp only [List.mem_map] at hd
          obtain ⟨x, _, rfl⟩ := hd
          exact odbc_table_ddl_ends_semi x.name x.cols x.pk x.fk)
        (by simp)
    · rfl

/-- C8 witness: the empty catalog gives the placeholder; a two-table
catalog (alphabetical) gives the blank-line-separated concatenation. -/
theorem odbc_ddl_star_spec_witness :
    odbc_ddl_star [] = "-- No tables found in database" ∧
    odbc_ddl_star [⟨"a", [], [], []⟩, ⟨"b", [], [], []⟩]
      = blank_line_concat
          (List.map odbc_ddl_of [⟨"a", [], [], []⟩, ⟨"b", [], [], []⟩]) :=
  ⟨((odbc_ddl_star_spec [] rfl).1 rfl).1,
   (odbc_ddl_star_spec [⟨"a", [], [], []⟩, ⟨"b", [], [], []⟩] (by decide)).2
     (by simp)⟩

end DbMulti
